import Mathlib

/-!
Shallow embedding of the OAuth demo (Authorization Server provider,
AS introspection route, RS-side token verifier) from
`mcp-server-demo`.  Python dictionaries become association lists with
dict semantics (one binding per key; insert replaces, delete removes),
`time.time()` becomes an explicit `now : Int` argument, and the random
values produced by `secrets` become explicit arguments.  Methods that
may raise `HTTPException` return the post-state paired with
`Except HttpError α`, so that a raise occurring before any mutation is
visible as "returned state = input state".
-/

namespace OAuthDemo

/-- Association-list lookup, mirroring `dict.get(k)`. -/
def assocGet {V : Type} (k : String) : List (String × V) → Option V
  | [] => none
  | (k', v) :: t => if k' = k then some v else assocGet k t

/-- Association-list insert, mirroring `d[k] = v` (replace in place, else append). -/
def assocSet {V : Type} (k : String) (v : V) : List (String × V) → List (String × V)
  | [] => [(k, v)]
  | (k', v') :: t => if k' = k then (k, v) :: t else (k', v') :: assocSet k v t

/-- Association-list delete, mirroring `del d[k]` (a dict key occurs at most once,
so removing every binding of `k` agrees with dict deletion). -/
def assocErase {V : Type} (k : String) : List (String × V) → List (String × V)
  | [] => []
  | (k', v') :: t => if k' = k then assocErase k t else (k', v') :: assocErase k t

/-- Record `OAuthClientInformationFull`, restricted to the fields this repository reads. -/
structure Client where
  client_id : String
  client_secret : Option String
  redirect_uris : List String
  deriving DecidableEq, Repr

/-- Record `AuthorizationParams` as consumed by `InMemoryAuthProvider.authorize`. -/
structure AuthorizationParams where
  state : Option String
  redirect_uri : String
  code_challenge : String
  redirect_uri_provided_explicitly : Bool
  resource : Option String
  deriving DecidableEq, Repr

/-- One value of `_state_map`: the `dict[str, str | None]` stored by `authorize`
(`redirect_uri_provided_explicitly` is stored stringified, as in the source). -/
structure PendingAuthorization where
  redirect_uri : String
  code_challenge : String
  redirect_uri_provided_explicitly : String
  client_id : String
  resource : Option String
  deriving DecidableEq, Repr

/-- Record `AuthorizationCode` (MCP SDK), the fields this repository uses. -/
structure AuthorizationCode where
  code : String
  client_id : String
  scopes : List String
  expires_at : Int
  code_challenge : String
  redirect_uri : String
  redirect_uri_provided_explicitly : Bool
  resource : Option String
  deriving DecidableEq, Repr

/-- Record `AccessToken` (MCP SDK), the fields this repository uses. -/
structure AccessToken where
  token : String
  client_id : String
  scopes : List String
  expires_at : Option Int
  resource : Option String
  deriving DecidableEq, Repr

/-- Record `RefreshToken` as far as `revoke_token` can see one. -/
structure RefreshToken where
  token : String
  deriving DecidableEq, Repr

/-- Argument of `revoke_token`, which is `AccessToken | RefreshToken` in the source. -/
inductive RevokableToken where
  | access (a : AccessToken)
  | refresh (r : RefreshToken)
  deriving DecidableEq, Repr

/-- Record `OAuthToken` returned by `exchange_authorization_code`. -/
structure OAuthToken where
  access_token : String
  token_type : String
  expires_in : Int
  scope : Option String
  refresh_token : Option String
  deriving DecidableEq, Repr

/-- A raised `starlette` `HTTPException(status, detail)`. -/
structure HttpError where
  status : Nat
  detail : String
  deriving DecidableEq, Repr

instance {ε α : Type} [DecidableEq ε] [DecidableEq α] : DecidableEq (Except ε α) := fun x y =>
  match x, y with
  | .ok a, .ok b =>
    if h : a = b then isTrue (h ▸ rfl) else isFalse (by intro he; cases he; exact h rfl)
  | .error a, .error b =>
    if h : a = b then isTrue (h ▸ rfl) else isFalse (by intro he; cases he; exact h rfl)
  | .ok _, .error _ => isFalse (by intro he; cases he)
  | .error _, .ok _ => isFalse (by intro he; cases he)

/-- The in-memory state of `InMemoryAuthProvider`: the four stores plus the
configuration captured in `__init__`. -/
structure ASState where
  clients : List (String × Client)
  authCodes : List (String × AuthorizationCode)
  accessTokens : List (String × AccessToken)
  stateMap : List (String × PendingAuthorization)
  demoUsername : String
  demoPassword : String
  tokenLifetime : Int
  loginUrl : String
  deriving DecidableEq, Repr

/-- Constructor `InMemoryAuthProvider.__init__`: empty stores, given configuration. -/
def initState (base demoUsername demoPassword : String) (tokenLifetime : Int) : ASState :=
  { clients := []
    authCodes := []
    accessTokens := []
    stateMap := []
    demoUsername := demoUsername
    demoPassword := demoPassword
    tokenLifetime := tokenLifetime
    loginUrl := base ++ "/login" }

/-- Method `InMemoryAuthProvider.get_client`: `self._clients.get(client_id)`.
Stated in state-passing style to record that it performs no mutation. -/
def get_client (s : ASState) (client_id : String) : ASState × Option Client :=
  (s, assocGet client_id s.clients)

/-- Method `InMemoryAuthProvider.register_client`: `self._clients[client_info.client_id] = client_info`. -/
def register_client (s : ASState) (client_info : Client) : ASState :=
  { s with clients := assocSet client_info.client_id client_info s.clients }

/-- Python `str(bool)`. -/
def pyBoolStr (b : Bool) : String :=
  if b then "True" else "False"

/-- Method `InMemoryAuthProvider.authorize`: picks `params.state or token_urlsafe(16)`
(the generated value is the explicit `genState` argument; Python `or` treats the
empty string as absent), stores the pending-authorization entry under it, and
returns the login URL. -/
def chosenState (params : AuthorizationParams) (genState : String) : String :=
  match params.state with
  | some st => if st = "" then genState else st
  | none => genState

/-- Method `InMemoryAuthProvider.authorize`, continued: the body after the
state choice. -/
def authorize (s : ASState) (client : Client) (params : AuthorizationParams)
    (genState : String) : ASState × String :=
  let state := chosenState params genState
  let entry : PendingAuthorization :=
    { redirect_uri := params.redirect_uri
      code_challenge := params.code_challenge
      redirect_uri_provided_explicitly := pyBoolStr params.redirect_uri_provided_explicitly
      client_id := client.client_id
      resource := params.resource }
  ({ s with stateMap := assocSet state entry s.stateMap },
   s.loginUrl ++ "?state=" ++ state ++ "&client_id=" ++ client.client_id)

/-- The SDK's `construct_redirect_uri(redirect_uri, code=..., state=...)`,
modelled as query-string concatenation. -/
def constructRedirectUri (redirect_uri code state : String) : String :=
  redirect_uri ++ "?code=" ++ code ++ "&state=" ++ state

/-- Method `InMemoryAuthProvider.handle_login_callback`.  The three form fields are
`Option String` (`none` models a missing or non-string field, which the
`isinstance` guard rejects); `codeHex` is the `secrets.token_hex(16)` value.
On success it stores the new authorization code, deletes the pending state,
and returns the redirect URL. -/
def handle_login_callback (s : ASState) (username password state : Option String)
    (now : Int) (codeHex : String) : ASState × Except HttpError String :=
  match username, password, state with
  | some username, some password, some state =>
    match assocGet state s.stateMap with
    | none => (s, .error ⟨400, "Unknown or expired state"⟩)
    | some stateData =>
      if username ≠ s.demoUsername ∨ password ≠ s.demoPassword then
        (s, .error ⟨401, "Invalid credentials"⟩)
      else
        let codeValue := "mcp_" ++ codeHex
        let authCode : AuthorizationCode :=
          { code := codeValue
            client_id := stateData.client_id
            scopes := []
            expires_at := now + 300
            code_challenge := stateData.code_challenge
            redirect_uri := stateData.redirect_uri
            redirect_uri_provided_explicitly :=
              stateData.redirect_uri_provided_explicitly = "True"
            resource := stateData.resource }
        ({ s with
            authCodes := assocSet codeValue authCode s.authCodes
            stateMap := assocErase state s.stateMap },
         .ok (constructRedirectUri stateData.redirect_uri codeValue state))
  | _, _, _ => (s, .error ⟨400, "Invalid form parameters"⟩)

/-- Method `InMemoryAuthProvider.load_authorization_code`:
`self._auth_codes.get(authorization_code)` — a plain lookup, with no expiry check. -/
def load_authorization_code (s : ASState) (_client : Client)
    (authorization_code : String) : ASState × Option AuthorizationCode :=
  (s, assocGet authorization_code s.authCodes)

/-- Method `InMemoryAuthProvider.exchange_authorization_code`: re-reads the store,
raises on a missing code or a client mismatch, otherwise deletes the code and
issues an access token (`tokenHex` is the `secrets.token_hex(32)` value). -/
def exchange_authorization_code (s : ASState) (client : Client)
    (authorization_code : AuthorizationCode) (now : Int) (tokenHex : String) :
    ASState × Except HttpError OAuthToken :=
  match assocGet authorization_code.code s.authCodes with
  | none => (s, .error ⟨400, "Invalid authorization code"⟩)
  | some stored =>
    if stored.client_id ≠ client.client_id then
      (s, .error ⟨400, "Invalid authorization code"⟩)
    else
      let tokenValue := "mcp_" ++ tokenHex
      let expiresAt := now + s.tokenLifetime
      let access : AccessToken :=
        { token := tokenValue
          client_id := client.client_id
          scopes := authorization_code.scopes
          expires_at := some expiresAt
          resource := authorization_code.resource }
      ({ s with
          authCodes := assocErase authorization_code.code s.authCodes
          accessTokens := assocSet tokenValue access s.accessTokens },
       .ok { access_token := tokenValue
             token_type := "Bearer"
             expires_in := s.tokenLifetime
             scope := if authorization_code.scopes = [] then none
               else some (String.intercalate " " authorization_code.scopes)
             refresh_token := none })

/-- The expiry test of `load_access_token`:
`access.expires_at and access.expires_at < int(time.time())`
(a `None` or `0` expiry is falsy, hence never treated as expired). -/
def tokenExpired (a : AccessToken) (now : Int) : Bool :=
  match a.expires_at with
  | none => false
  | some e => e ≠ 0 && e < now

/-- Method `InMemoryAuthProvider.load_access_token`: lookup; an expired token is
deleted (the `try/except KeyError: pass` makes a delete of an already-absent
entry a no-op) and reported absent. -/
def load_access_token (s : ASState) (token : String) (now : Int) :
    ASState × Option AccessToken :=
  match assocGet token s.accessTokens with
  | none => (s, none)
  | some access =>
    if tokenExpired access now then
      ({ s with accessTokens := assocErase token s.accessTokens }, none)
    else
      (s, some access)

/-- Method `InMemoryAuthProvider.revoke_token`: an `AccessToken` is deleted from the
store (`try/except KeyError: pass`, so an absent token raises no error);
a `RefreshToken` is ignored. -/
def revoke_token (s : ASState) (token : RevokableToken) : ASState :=
  match token with
  | .access a => { s with accessTokens := assocErase a.token s.accessTokens }
  | .refresh _ => s

/-- The AS introspection JSON response (`JSONResponse` body of the
`/introspect` route): `none` fields are keys that the inactive response
does not populate. -/
structure IntrospectionResponse where
  active : Bool
  client_id : Option String
  scope : Option String
  exp : Option Int
  iat : Option Int
  deriving DecidableEq, Repr

/-- The `{"active": False}` response body. -/
def inactiveResponse : IntrospectionResponse :=
  { active := false, client_id := none, scope := none, exp := none, iat := none }

/-- Modelled from the spec: the `/introspect` route in
`authorization_server/server.py` calls `provider.validate_access_token(token)`,
a method that appears nowhere in the repository sources; per spec §2 (data
flow: Introspection Endpoint → Authorization Engine `load-token`) and §4.4,
introspection resolves a token through the engine's `load-token`, so the
missing method is modelled as `load_access_token`. -/
def validate_access_token (s : ASState) (token : String) (now : Int) :
    ASState × Option AccessToken :=
  load_access_token s token now

/-- The `/introspect` route of `authorization_server/server.py`:
a missing, non-string, or falsy (empty) `token` form field and an
unknown/invalid token all yield `{"active": False}`; a live token yields the
active response with `client_id`, space-joined `scope`, `exp` and `iat`. -/
def introspect (s : ASState) (token : Option String) (now : Int) :
    ASState × IntrospectionResponse :=
  match token with
  | none => (s, inactiveResponse)
  | some token =>
    if token = "" then (s, inactiveResponse)
    else
      match validate_access_token s token now with
      | (s', none) => (s', inactiveResponse)
      | (s', some info) =>
        (s', { active := true
               client_id := some info.client_id
               scope := some (String.intercalate " " info.scopes)
               exp := info.expires_at
               iat := some now })

/-- A parsed JSON value, as handed to `verify_token` by `response.json()`. -/
inductive JsonValue where
  | jnull
  | jbool (b : Bool)
  | jnum (n : Int)
  | jstr (s : String)
  | jarr (elems : List JsonValue)
  | jobj (fields : List (String × JsonValue))

/-- Python truthiness of a JSON value (`None`, `False`, `0`, `""`, `[]`, `{}`
are falsy). -/
def truthy : JsonValue → Bool
  | .jnull => false
  | .jbool b => b
  | .jnum n => n ≠ 0
  | .jstr s => s ≠ ""
  | .jarr l => ¬ l.isEmpty
  | .jobj l => ¬ l.isEmpty

/-- Python `str(...)` on a JSON value (only the string/number/bool shapes are
rendered exactly; the verifier applies this to `data.get("client_id", "")`). -/
def pyStr : JsonValue → String
  | .jnull => "None"
  | .jbool b => pyBoolStr b
  | .jnum n => toString n
  | .jstr s => s
  | .jarr _ => "[...]"
  | .jobj _ => "{...}"

/-- Decimal-digit accumulator for `pyIntStr`: consumes the remaining
characters, failing on any non-digit; `none` as the accumulator means no
digit has been seen yet (so an empty digit string fails, as `int("")` does). -/
def pyDigits : List Char → Option Nat → Option Nat
  | [], acc => acc
  | c :: cs, acc =>
    if c.isDigit then pyDigits cs (some ((acc.getD 0) * 10 + (c.toNat - 48)))
    else none

/-- Python `int(...)` applied to a string: surrounding whitespace is stripped,
an optional sign is accepted, and anything else than a nonempty digit run
raises (modelled as `none`). -/
def pyIntStr (s : String) : Option Int :=
  let cs := s.toList.dropWhile Char.isWhitespace
  let cs := ((cs.reverse.dropWhile Char.isWhitespace).reverse)
  match cs with
  | '-' :: rest => (pyDigits rest none).map (fun n => -(n : Int))
  | '+' :: rest => (pyDigits rest none).map (fun n => (n : Int))
  | rest => (pyDigits rest none).map (fun n => (n : Int))

/-- Python `int(...)` on a JSON value: numbers pass through, booleans become
0/1, strings are parsed (a failure raises, modelled as `none`), and any other
shape raises. -/
def pyInt : JsonValue → Option Int
  | .jnum n => some n
  | .jbool b => some (if b then 1 else 0)
  | .jstr s => pyIntStr s
  | _ => none

/-- Whitespace splitter behind `splitScopes`: the accumulator holds the
current word reversed; words are emitted at whitespace boundaries and at the
end, so no empty word is ever produced (Python `str.split()` semantics). -/
def splitWSAux : List Char → List Char → List String
  | [], acc => if acc.isEmpty then [] else [String.mk acc.reverse]
  | c :: cs, acc =>
    if c.isWhitespace then
      if acc.isEmpty then splitWSAux cs []
      else String.mk acc.reverse :: splitWSAux cs []
    else splitWSAux cs (c :: acc)

/-- Python `str.split()` (split on whitespace runs) followed by the
`[s for s in ... if s]` filter of the verifier. -/
def splitScopes (s : String) : List String :=
  (splitWSAux s.toList []).filter (fun w => w ≠ "")

/-- What the RS observes from its introspection POST: a raised network error,
or an HTTP response with a status code and a body (`none` = `response.json()`
raised on malformed JSON). -/
inductive IntrospectOutcome where
  | netError
  | httpResponse (status : Nat) (body : Option JsonValue)

/-- Method `IntrospectionTokenVerifier.verify_token` (`resource_server/server.py`):
every raised exception is caught and mapped to `none`; a non-200 status or a
non-truthy `active` is `none`; otherwise the response is translated into the
RS-internal `AccessToken`. A non-object body makes `data.get` raise, and an
unparseable `exp` makes `int(...)` raise — both are caught, yielding `none`. -/
def verify_token (token : String) (outcome : IntrospectOutcome) : Option AccessToken :=
  match outcome with
  | .netError => none
  | .httpResponse status body =>
    if status ≠ 200 then none
    else
      match body with
      | none => none
      | some (.jobj fields) =>
        let active := (assocGet "active" fields).getD (.jbool false)
        if ¬ truthy active then none
        else
          let scopes := (assocGet "scope" fields).getD (.jstr "")
          let scopeList := match scopes with
            | .jstr s => splitScopes s
            | _ => []
          let expiresAt : Option (Option Int) := match assocGet "exp" fields with
            | none => some none
            | some .jnull => some none
            | some v => (pyInt v).map some
          match expiresAt with
          | none => none
          | some expiresAt =>
            let audience := match assocGet "aud" fields with
              | some (.jstr s) => some s
              | _ => none
            some { token := token
                   client_id := pyStr ((assocGet "client_id" fields).getD (.jstr ""))
                   scopes := scopeList
                   expires_at := expiresAt
                   resource := audience }
      | some _ => none

/-! ### Concrete sample data (used by witnesses and counterexamples) -/

/-- A sample registered client. -/
def sampleClient : Client :=
  { client_id := "client-1", client_secret := some "sec", redirect_uris := ["http://cb"] }

/-- A second client with a different `client_id`. -/
def otherClient : Client :=
  { client_id := "client-2", client_secret := none, redirect_uris := ["http://cb2"] }

/-- The provider state right after `__init__` with the default settings. -/
def baseState : ASState :=
  initState "http://localhost:9000" "demo_user" "demo_password" 3600

/-- Sample authorization parameters carrying an explicit state. -/
def sampleParams : AuthorizationParams :=
  { state := some "st1", redirect_uri := "http://cb", code_challenge := "chal"
    redirect_uri_provided_explicitly := true, resource := none }

/-- The pending-authorization entry `authorize` would store for `sampleParams`. -/
def samplePending : PendingAuthorization :=
  { redirect_uri := "http://cb", code_challenge := "chal"
    redirect_uri_provided_explicitly := "True", client_id := "client-1", resource := none }

/-- A provider state holding one pending authorization under state `st1`. -/
def stateWithPending : ASState :=
  { baseState with stateMap := [("st1", samplePending)] }

/-- A stored authorization code bound to `client-1`, expiring at time 400. -/
def sampleCode : AuthorizationCode :=
  { code := "mcp_c0de", client_id := "client-1", scopes := [], expires_at := 400
    code_challenge := "chal", redirect_uri := "http://cb"
    redirect_uri_provided_explicitly := true, resource := none }

/-- A provider state holding `sampleCode`. -/
def stateWithCode : ASState :=
  { baseState with authCodes := [("mcp_c0de", sampleCode)] }

/-- A stored authorization code whose `expires_at` (100) is already in the past
at time 200. -/
def expiredCode : AuthorizationCode :=
  { sampleCode with expires_at := 100 }

/-- A provider state holding only `expiredCode`. -/
def stateWithExpiredCode : ASState :=
  { baseState with authCodes := [("mcp_c0de", expiredCode)] }

/-- The access token that exchanging `sampleCode` at time 50 with hex `beef`
creates. -/
def exchangedToken : AccessToken :=
  { token := "mcp_beef", client_id := "client-1", scopes := []
    expires_at := some 3650, resource := none }

/-- The provider state after that successful exchange. -/
def stateAfterExchange : ASState :=
  { baseState with accessTokens := [("mcp_beef", exchangedToken)] }

/-- The token response of that successful exchange. -/
def sampleOAuthToken : OAuthToken :=
  { access_token := "mcp_beef", token_type := "Bearer", expires_in := 3600
    scope := none, refresh_token := none }

/-- A stored access token expiring at time 100. -/
def sampleToken : AccessToken :=
  { token := "tok", client_id := "client-1", scopes := ["user", "read"]
    expires_at := some 100, resource := none }

/-- A provider state holding `sampleToken`. -/
def stateWithToken : ASState :=
  { baseState with accessTokens := [("tok", sampleToken)] }

/-! ### Association-list (dict) lemmas -/

theorem assocGet_assocSet_self {V : Type} (k : String) (v : V) (l : List (String × V)) :
    assocGet k (assocSet k v l) = some v := by
  induction l with
  | nil => simp [assocSet, assocGet]
  | cons hd t ih =>
    obtain ⟨k', v'⟩ := hd
    by_cases hk : k' = k
    · subst hk; simp [assocSet, assocGet]
    · simp [assocSet, assocGet, hk, ih]

theorem assocGet_assocSet_ne {V : Type} {k k' : String} (v : V) (l : List (String × V))
    (hne : k' ≠ k) : assocGet k' (assocSet k v l) = assocGet k' l := by
  induction l with
  | nil => simp [assocSet, assocGet, Ne.symm hne]
  | cons hd t ih =>
    obtain ⟨k'', v''⟩ := hd
    by_cases hk : k'' = k
    · subst hk
      simp [assocSet, assocGet, Ne.symm hne]
    · by_cases hk2 : k'' = k'
      · subst hk2; simp [assocSet, assocGet, hk]
      · simp [assocSet, assocGet, hk, hk2, ih]

theorem assocGet_assocErase_self {V : Type} (k : String) (l : List (String × V)) :
    assocGet k (assocErase k l) = none := by
  induction l with
  | nil => simp [assocErase, assocGet]
  | cons hd t ih =>
    obtain ⟨k', v'⟩ := hd
    by_cases hk : k' = k
    · simp [assocErase, hk, ih]
    · simp [assocErase, assocGet, hk, ih]

theorem assocGet_assocErase_ne {V : Type} {k k' : String} (l : List (String × V))
    (hne : k' ≠ k) : assocGet k' (assocErase k l) = assocGet k' l := by
  induction l with
  | nil => simp [assocErase]
  | cons hd t ih =>
    obtain ⟨k'', v''⟩ := hd
    by_cases hk : k'' = k
    · subst hk
      simp [assocErase, assocGet, Ne.symm hne, ih]
    · by_cases hk2 : k'' = k'
      · subst hk2; simp [assocErase, assocGet, hk]
      · simp [assocErase, assocGet, hk, hk2, ih]

theorem assocErase_of_get_none {V : Type} {k : String} {l : List (String × V)}
    (h : assocGet k l = none) : assocErase k l = l := by
  induction l with
  | nil => simp [assocErase]
  | cons hd t ih =>
    obtain ⟨k', v'⟩ := hd
    by_cases hk : k' = k
    · subst hk; simp [assocGet] at h
    · simp [assocGet, hk] at h
      simp [assocErase, hk, ih h]

theorem mem_map_fst_assocSet {V : Type} (a k : String) (v : V) (l : List (String × V)) :
    a ∈ (assocSet k v l).map Prod.fst ↔ a = k ∨ a ∈ l.map Prod.fst := by
  induction l with
  | nil => simp [assocSet]
  | cons hd t ih =>
    obtain ⟨k', v'⟩ := hd
    by_cases hk : k' = k
    · subst hk; simp [assocSet]
    · simp [assocSet, hk, ih]
      tauto

theorem nodup_map_fst_assocSet {V : Type} (k : String) (v : V) {l : List (String × V)}
    (h : (l.map Prod.fst).Nodup) : ((assocSet k v l).map Prod.fst).Nodup := by
  induction l with
  | nil => simp [assocSet]
  | cons hd t ih =>
    obtain ⟨k', v'⟩ := hd
    rw [List.map_cons, List.nodup_cons] at h
    by_cases hk : k' = k
    · subst hk
      have hset : assocSet k' v ((k', v') :: t) = (k', v) :: t := by simp [assocSet]
      rw [hset, List.map_cons, List.nodup_cons]
      exact h
    · have h2 := ih h.2
      have hset : assocSet k v ((k', v') :: t) = (k', v') :: assocSet k v t := by
        simp [assocSet, hk]
      rw [hset, List.map_cons, List.nodup_cons]
      refine ⟨?_, h2⟩
      rw [mem_map_fst_assocSet]
      push_neg
      exact ⟨hk, h.1⟩

/-! ### Claim theorems -/

/-- C1: an authorization code is single-use.  If a first `exchange_authorization_code`
call for a code value succeeds, any later call (by any client) presenting the
same code value fails with the `InvalidGrant` error (HTTP 400,
"Invalid authorization code"), because the winning exchange removed the code
from the code store. -/
theorem exchange_code_single_use
    (s s' : ASState) (c₁ c₂ : Client) (ac₁ ac₂ : AuthorizationCode)
    (now₁ now₂ : Int) (hex₁ hex₂ : String) (tok : OAuthToken)
    (hcode : ac₂.code = ac₁.code)
    (h : exchange_authorization_code s c₁ ac₁ now₁ hex₁ = (s', .ok tok)) :
    (exchange_authorization_code s' c₂ ac₂ now₂ hex₂).2 =
      .error ⟨400, "Invalid authorization code"⟩ := by
  unfold exchange_authorization_code at h ⊢
  cases hget : assocGet ac₁.code s.authCodes with
  | none => rw [hget] at h; simp at h
  | some stored =>
    rw [hget] at h
    by_cases hcl : stored.client_id ≠ c₁.client_id
    · simp [hcl] at h
    · simp only [hcl, if_neg, ite_false, not_false_eq_true, if_false] at h
      rw [Prod.mk.injEq] at h
      obtain ⟨hs', _⟩ := h
      rw [← hs']
      have hnone : assocGet ac₂.code (assocErase ac₁.code s.authCodes) = none := by
        rw [hcode]; exact assocGet_assocErase_self _ _
      simp [hnone]

/-- Witness for C1 at a concrete state: the first exchange of `sampleCode`
succeeds and the immediate re-exchange of the same code value fails. -/
theorem exchange_code_single_use_witness :
    sampleCode.code = sampleCode.code
    ∧ exchange_authorization_code stateWithCode sampleClient sampleCode 50 "beef"
        = (stateAfterExchange, .ok sampleOAuthToken)
    ∧ (exchange_authorization_code stateAfterExchange otherClient sampleCode 60 "f00d").2
        = .error ⟨400, "Invalid authorization code"⟩ :=
  ⟨rfl, by decide,
   exchange_code_single_use stateWithCode stateAfterExchange sampleClient otherClient
     sampleCode sampleCode 50 60 "beef" "f00d" sampleOAuthToken rfl (by decide)⟩

/-- C5: exchanging an authorization code whose stored `client_id` differs from
the calling client fails with the `InvalidGrant` error and leaves the provider
state (in particular the code store) unchanged: the mismatched code is not
consumed and no access token is issued. -/
theorem exchange_code_client_binding
    (s : ASState) (c : Client) (ac stored : AuthorizationCode) (now : Int) (hex : String)
    (hget : assocGet ac.code s.authCodes = some stored)
    (hne : stored.client_id ≠ c.client_id) :
    exchange_authorization_code s c ac now hex
      = (s, .error ⟨400, "Invalid authorization code"⟩) := by
  unfold exchange_authorization_code
  rw [hget]
  simp [hne]

/-- Witness for C5: `otherClient` cannot redeem `sampleCode`, which is bound
to `client-1`. -/
theorem exchange_code_client_binding_witness :
    assocGet sampleCode.code stateWithCode.authCodes = some sampleCode
    ∧ sampleCode.client_id ≠ otherClient.client_id
    ∧ exchange_authorization_code stateWithCode otherClient sampleCode 50 "beef"
        = (stateWithCode, .error ⟨400, "Invalid authorization code"⟩) :=
  ⟨by decide, by decide,
   exchange_code_client_binding stateWithCode otherClient sampleCode sampleCode 50 "beef"
     (by decide) (by decide)⟩

/-- C4 (code bug): the source performs no expiry check on authorization codes.
At time 200, the stored `expiredCode` (whose `expires_at` is 100) is still
returned by `load_authorization_code`, and `exchange_authorization_code`
still issues an access token instead of failing with `InvalidGrant`. -/
theorem expired_code_still_exchangeable :
    expiredCode.expires_at < 200
    ∧ (load_authorization_code stateWithExpiredCode sampleClient "mcp_c0de").2
        = some expiredCode
    ∧ (exchange_authorization_code stateWithExpiredCode sampleClient expiredCode 200 "beef").2
        = .ok { access_token := "mcp_beef", token_type := "Bearer", expires_in := 3600
                scope := none, refresh_token := none } := by
  refine ⟨by decide, by decide, by decide⟩

/-- C3 counterexample: at the boundary `now = expires_at` the claim says
`load_access_token` returns absent, but the source's strict comparison
(`expires_at < int(time.time())`) keeps the token: at time 100 the token
expiring at 100 is still returned. -/
theorem load_access_token_boundary_counterexample :
    sampleToken.expires_at = some 100
    ∧ (load_access_token stateWithToken "tok" 100).2 = some sampleToken := by
  refine ⟨by decide, by decide⟩

/-- C3 (amended): a stored access token with a nonzero expiry `e` is returned
while `now ≤ e` (so the boundary at exactly `expires_at` resolves to PRESENT,
not absent) and is absent strictly after `e`; in the expired case the token is
deleted on that access, and a repeated lookup finding the entry already absent
returns absent without an error. -/
theorem load_access_token_expiry_amended
    (s : ASState) (t : String) (a : AccessToken) (now e : Int)
    (hmem : assocGet t s.accessTokens = some a)
    (hexp : a.expires_at = some e) (h0 : e ≠ 0) :
    (now ≤ e → load_access_token s t now = (s, some a))
    ∧ (e < now →
        (load_access_token s t now).2 = none
        ∧ (load_access_token s t now).1
            = { s with accessTokens := assocErase t s.accessTokens }
        ∧ (load_access_token (load_access_token s t now).1 t now).2 = none) := by
  constructor
  · intro hle
    have hx : tokenExpired a now = false := by
      simp [tokenExpired, hexp]
      intro _
      exact hle
    simp [load_access_token, hmem, hx]
  · intro hlt
    have hx : tokenExpired a now = true := by
      simp [tokenExpired, hexp, h0, hlt]
    refine ⟨?_, ?_, ?_⟩
    · simp [load_access_token, hmem, hx]
    · simp [load_access_token, hmem, hx]
    · simp [load_access_token, hmem, hx, assocGet_assocErase_self]

/-- Witness for the amended C3 at the boundary time 100 and at time 101. -/
theorem load_access_token_expiry_amended_witness :
    assocGet "tok" stateWithToken.accessTokens = some sampleToken
    ∧ sampleToken.expires_at = some 100
    ∧ (100 : Int) ≠ 0
    ∧ (((101 : Int) ≤ 100 → load_access_token stateWithToken "tok" 101
          = (stateWithToken, some sampleToken))
       ∧ ((100 : Int) < 101 →
          (load_access_token stateWithToken "tok" 101).2 = none
          ∧ (load_access_token stateWithToken "tok" 101).1
              = { stateWithToken with
                    accessTokens := assocErase "tok" stateWithToken.accessTokens }
          ∧ (load_access_token (load_access_token stateWithToken "tok" 101).1 "tok" 101).2
              = none)) :=
  ⟨by decide, by decide, by decide,
   load_access_token_expiry_amended stateWithToken "tok" sampleToken 101 100
     (by decide) (by decide) (by decide)⟩

/-- C2: the AS introspection endpoint (with `validate_access_token` modelled
from the spec as the engine's `load-token`, since the method called by the
route does not exist in the sources) answers a stored, unexpired token with
`active: true`, the token's `client_id`, its scopes joined with spaces, and
its `expires_at` as `exp`; a token that is absent from the store (revoked or
never issued) or expired gets `active: false` with no other fields populated. -/
theorem introspect_response_contract
    (s : ASState) (t : String) (a : AccessToken) (now : Int)
    (ht : t ≠ "") :
    (assocGet t s.accessTokens = some a → tokenExpired a now = false →
      (introspect s (some t) now).2 =
        { active := true, client_id := some a.client_id
          scope := some (String.intercalate " " a.scopes)
          exp := a.expires_at, iat := some now })
    ∧ (assocGet t s.accessTokens = none →
      (introspect s (some t) now).2 = inactiveResponse)
    ∧ (assocGet t s.accessTokens = some a → tokenExpired a now = true →
      (introspect s (some t) now).2 = inactiveResponse) := by
  refine ⟨?_, ?_, ?_⟩
  · intro hmem hx
    simp [introspect, ht, validate_access_token, load_access_token, hmem, hx]
  · intro hmem
    simp [introspect, ht, validate_access_token, load_access_token, hmem]
  · intro hmem hx
    simp [introspect, ht, validate_access_token, load_access_token, hmem, hx]

/-- Witness for C2: introspecting the live `sampleToken` at time 50, and the
unknown token value `nope` at time 50. -/
theorem introspect_response_contract_witness :
    ("tok" : String) ≠ ""
    ∧ ((assocGet "tok" stateWithToken.accessTokens = some sampleToken →
          tokenExpired sampleToken 50 = false →
          (introspect stateWithToken (some "tok") 50).2 =
            { active := true, client_id := some sampleToken.client_id
              scope := some (String.intercalate " " sampleToken.scopes)
              exp := sampleToken.expires_at, iat := some 50 })
       ∧ (assocGet "tok" stateWithToken.accessTokens = none →
          (introspect stateWithToken (some "tok") 50).2 = inactiveResponse)
       ∧ (assocGet "tok" stateWithToken.accessTokens = some sampleToken →
          tokenExpired sampleToken 50 = true →
          (introspect stateWithToken (some "tok") 50).2 = inactiveResponse)) :=
  ⟨by decide, introspect_response_contract stateWithToken "tok" sampleToken 50 (by decide)⟩

/-- C9: revocation is idempotent and frame-preserving.  Revoking an access
token absent from the store returns the state unchanged (no error), and
revoking a stored access token removes exactly that entry: every other
access token, and the client, authorization-code and pending-authorization
stores, are untouched. -/
theorem revoke_token_idempotent_frame
    (s₁ s₂ : ASState) (a₁ a₂ : AccessToken) (k : String)
    (habs : assocGet a₁.token s₁.accessTokens = none)
    (hne : k ≠ a₂.token) :
    revoke_token s₁ (.access a₁) = s₁
    ∧ assocGet a₂.token (revoke_token s₂ (.access a₂)).accessTokens = none
    ∧ assocGet k (revoke_token s₂ (.access a₂)).accessTokens
        = assocGet k s₂.accessTokens
    ∧ (revoke_token s₂ (.access a₂)).clients = s₂.clients
    ∧ (revoke_token s₂ (.access a₂)).authCodes = s₂.authCodes
    ∧ (revoke_token s₂ (.access a₂)).stateMap = s₂.stateMap := by
  refine ⟨?_, ?_, ?_, rfl, rfl, rfl⟩
  · show { s₁ with accessTokens := assocErase a₁.token s₁.accessTokens } = s₁
    rw [assocErase_of_get_none habs]
  · exact assocGet_assocErase_self _ _
  · exact assocGet_assocErase_ne _ hne

/-- Witness for C9: revoking the unknown token `ghost` in `stateWithToken`
changes nothing; revoking the stored `tok` removes it while the entry under
the other key `zzz` is unaffected. -/
theorem revoke_token_idempotent_frame_witness :
    assocGet "ghost" stateWithToken.accessTokens = none
    ∧ ("zzz" : String) ≠ "tok"
    ∧ (revoke_token stateWithToken
        (.access { token := "ghost", client_id := "x", scopes := []
                   expires_at := none, resource := none }) = stateWithToken
       ∧ assocGet "tok" (revoke_token stateWithToken (.access sampleToken)).accessTokens
           = none
       ∧ assocGet "zzz" (revoke_token stateWithToken (.access sampleToken)).accessTokens
           = assocGet "zzz" stateWithToken.accessTokens
       ∧ (revoke_token stateWithToken (.access sampleToken)).clients
           = stateWithToken.clients
       ∧ (revoke_token stateWithToken (.access sampleToken)).authCodes
           = stateWithToken.authCodes
       ∧ (revoke_token stateWithToken (.access sampleToken)).stateMap
           = stateWithToken.stateMap) :=
  ⟨by decide, by decide,
   revoke_token_idempotent_frame stateWithToken stateWithToken
     { token := "ghost", client_id := "x", scopes := [], expires_at := none, resource := none }
     sampleToken "zzz" (by decide) (by decide)⟩

/-- C7: lifecycle of a pending authorization.  `authorize` creates the entry
under the state it chose; a successful `handle_login_callback` for a state
deletes that entry, so a second callback with the same state fails with the
`InvalidState` error (HTTP 400, "Unknown or expired state"); and no other
operation of the provider touches the pending-authorization store. -/
theorem pending_authorization_lifecycle
    (s : ASState) (c : Client) (params : AuthorizationParams) (gen : String)
    (u p st u' p' : String) (now now' : Int) (hex hex' : String) (r : String)
    (cid tokstr : String) (ac : AuthorizationCode) (tk : RevokableToken)
    (itok : Option String)
    (h : (handle_login_callback s (some u) (some p) (some st) now hex).2 = .ok r) :
    assocGet (chosenState params gen) (authorize s c params gen).1.stateMap
      = some { redirect_uri := params.redirect_uri
               code_challenge := params.code_challenge
               redirect_uri_provided_explicitly := pyBoolStr params.redirect_uri_provided_explicitly
               client_id := c.client_id
               resource := params.resource }
    ∧ assocGet st (handle_login_callback s (some u) (some p) (some st) now hex).1.stateMap
        = none
    ∧ (handle_login_callback (handle_login_callback s (some u) (some p) (some st) now hex).1
         (some u') (some p') (some st) now' hex').2
        = .error ⟨400, "Unknown or expired state"⟩
    ∧ (register_client s c).stateMap = s.stateMap
    ∧ (get_client s cid).1.stateMap = s.stateMap
    ∧ (load_authorization_code s c tokstr).1.stateMap = s.stateMap
    ∧ (exchange_authorization_code s c ac now hex).1.stateMap = s.stateMap
    ∧ (load_access_token s tokstr now).1.stateMap = s.stateMap
    ∧ (revoke_token s tk).stateMap = s.stateMap
    ∧ (introspect s itok now).1.stateMap = s.stateMap := by
  cases hget : assocGet st s.stateMap with
  | none => simp [handle_login_callback, hget] at h
  | some sd =>
    by_cases hcred : u ≠ s.demoUsername ∨ p ≠ s.demoPassword
    · simp [handle_login_callback, hget, hcred] at h
    · refine ⟨?_, ?_, ?_, rfl, rfl, rfl, ?_, ?_, ?_, ?_⟩
      · simp [authorize, assocGet_assocSet_self]
      · simp [handle_login_callback, hget, hcred, assocGet_assocErase_self]
      · simp [handle_login_callback, hget, hcred, assocGet_assocErase_self]
      · unfold exchange_authorization_code
        cases hg2 : assocGet ac.code s.authCodes with
        | none => rfl
        | some stored =>
          by_cases hcl : stored.client_id ≠ c.client_id <;> simp [hcl]
      · unfold load_access_token
        cases hg3 : assocGet tokstr s.accessTokens with
        | none => rfl
        | some a =>
          by_cases hx : tokenExpired a now <;> simp [hx]
      · cases tk <;> rfl
      · unfold introspect
        cases itok with
        | none => rfl
        | some t =>
          by_cases hts : t = ""
          · simp [hts]
          · unfold validate_access_token load_access_token
            simp only [hts, if_neg, ite_false, if_false]
            cases hg4 : assocGet t s.accessTokens with
            | none => simp [hg4]
            | some a =>
              by_cases hx : tokenExpired a now <;> simp [hg4, hx]

/-- Witness for C7 on `stateWithPending`: the login callback for state `st1`
succeeds once, after which the entry is gone and the retry fails; the other
operations leave the pending store untouched. -/
theorem pending_authorization_lifecycle_witness :
    (handle_login_callback stateWithPending (some "demo_user") (some "demo_password")
        (some "st1") 10 "c0de").2 = .ok "http://cb?code=mcp_c0de&state=st1"
    ∧ (assocGet (chosenState sampleParams "gen")
          (authorize stateWithPending sampleClient sampleParams "gen").1.stateMap
        = some { redirect_uri := sampleParams.redirect_uri
                 code_challenge := sampleParams.code_challenge
                 redirect_uri_provided_explicitly :=
                   pyBoolStr sampleParams.redirect_uri_provided_explicitly
                 client_id := sampleClient.client_id
                 resource := sampleParams.resource }
       ∧ assocGet "st1" (handle_login_callback stateWithPending (some "demo_user")
            (some "demo_password") (some "st1") 10 "c0de").1.stateMap = none
       ∧ (handle_login_callback (handle_login_callback stateWithPending (some "demo_user")
            (some "demo_password") (some "st1") 10 "c0de").1
            (some "demo_user") (some "demo_password") (some "st1") 20 "c1de").2
           = .error ⟨400, "Unknown or expired state"⟩
       ∧ (register_client stateWithPending sampleClient).stateMap = stateWithPending.stateMap
       ∧ (get_client stateWithPending "client-1").1.stateMap = stateWithPending.stateMap
       ∧ (load_authorization_code stateWithPending sampleClient "mcp_c0de").1.stateMap
           = stateWithPending.stateMap
       ∧ (exchange_authorization_code stateWithPending sampleClient sampleCode 10 "c0de").1.stateMap
           = stateWithPending.stateMap
       ∧ (load_access_token stateWithPending "mcp_c0de" 10).1.stateMap
           = stateWithPending.stateMap
       ∧ (revoke_token stateWithPending (.access sampleToken)).stateMap
           = stateWithPending.stateMap
       ∧ (introspect stateWithPending (some "tok") 10).1.stateMap
           = stateWithPending.stateMap) :=
  ⟨by decide,
   pending_authorization_lifecycle stateWithPending sampleClient sampleParams "gen"
     "demo_user" "demo_password" "st1" "demo_user" "demo_password" 10 20 "c0de" "c1de"
     "http://cb?code=mcp_c0de&state=st1" "client-1" "mcp_c0de" sampleCode
     (.access sampleToken) (some "tok") (by decide)⟩

/-- C8: `handle_login_callback` is all-or-nothing.  Every failing call
(malformed form parameters, unknown state, wrong credentials) returns the
provider state unchanged, and a later call with a still-pending state and the
correct demo credentials succeeds, returning the redirect built from the
stored entry. -/
theorem complete_login_all_or_nothing
    (s : ASState) (u p st : Option String) (now : Int) (hex : String) (e : HttpError)
    (st₀ : String) (pd : PendingAuthorization) (now' : Int) (hex' : String)
    (hfail : (handle_login_callback s u p st now hex).2 = .error e)
    (hpend : assocGet st₀ s.stateMap = some pd) :
    (handle_login_callback s u p st now hex).1 = s
    ∧ (handle_login_callback s (some s.demoUsername) (some s.demoPassword)
        (some st₀) now' hex').2
      = .ok (constructRedirectUri pd.redirect_uri ("mcp_" ++ hex') st₀) := by
  constructor
  · rcases u with _ | u
    · rfl
    rcases p with _ | p
    · rfl
    rcases st with _ | st
    · rfl
    cases hg : assocGet st s.stateMap with
    | none => simp [handle_login_callback, hg]
    | some sd =>
      by_cases hcred : u ≠ s.demoUsername ∨ p ≠ s.demoPassword
      · simp [handle_login_callback, hg, hcred]
      · simp [handle_login_callback, hg, hcred] at hfail
  · simp [handle_login_callback, hpend]

/-- Witness for C8: a wrong-password attempt on `stateWithPending` leaves the
state unchanged, and the retry with the demo credentials succeeds. -/
theorem complete_login_all_or_nothing_witness :
    (handle_login_callback stateWithPending (some "demo_user") (some "wrong")
        (some "st1") 10 "c0de").2 = .error ⟨401, "Invalid credentials"⟩
    ∧ assocGet "st1" stateWithPending.stateMap = some samplePending
    ∧ ((handle_login_callback stateWithPending (some "demo_user") (some "wrong")
          (some "st1") 10 "c0de").1 = stateWithPending
       ∧ (handle_login_callback stateWithPending (some stateWithPending.demoUsername)
            (some stateWithPending.demoPassword) (some "st1") 20 "c1de").2
          = .ok (constructRedirectUri samplePending.redirect_uri ("mcp_" ++ "c1de") "st1")) :=
  ⟨by decide, by decide,
   complete_login_all_or_nothing stateWithPending (some "demo_user") (some "wrong")
     (some "st1") 10 "c0de" ⟨401, "Invalid credentials"⟩ "st1" samplePending 20 "c1de"
     (by decide) (by decide)⟩

/-- C10: client registration round-trip.  Immediately after `register_client`,
`get_client` returns exactly the registered record; `get_client` does not
modify the state; registering a second record under an equal `client_id`
replaces the first (last-writer-wins); and registration preserves the
at-most-one-record-per-`client_id` invariant of the registry. -/
theorem register_get_roundtrip
    (s : ASState) (c c₁ c₂ : Client) (cid : String)
    (hnd : (s.clients.map Prod.fst).Nodup)
    (hid : c₂.client_id = c₁.client_id) :
    (get_client (register_client s c) c.client_id).2 = some c
    ∧ (get_client s cid).1 = s
    ∧ (get_client (register_client (register_client s c₁) c₂) c₁.client_id).2 = some c₂
    ∧ ((register_client s c).clients.map Prod.fst).Nodup := by
  refine ⟨?_, rfl, ?_, ?_⟩
  · simp [get_client, register_client, assocGet_assocSet_self]
  · simp only [get_client, register_client]
    rw [← hid]
    exact assocGet_assocSet_self _ _ _
  · exact nodup_map_fst_assocSet _ _ hnd

/-- Witness for C10 on the empty registry: registering `sampleClient` and a
replacement record with the same id. -/
theorem register_get_roundtrip_witness :
    (baseState.clients.map Prod.fst).Nodup
    ∧ ({ client_id := "client-1", client_secret := none, redirect_uris := [] } : Client).client_id
        = sampleClient.client_id
    ∧ ((get_client (register_client baseState sampleClient) sampleClient.client_id).2
          = some sampleClient
       ∧ (get_client baseState "client-1").1 = baseState
       ∧ (get_client (register_client (register_client baseState sampleClient)
            { client_id := "client-1", client_secret := none, redirect_uris := [] })
            sampleClient.client_id).2
          = some { client_id := "client-1", client_secret := none, redirect_uris := [] }
       ∧ (((register_client baseState sampleClient).clients.map Prod.fst)).Nodup) :=
  ⟨by decide, by decide,
   register_get_roundtrip baseState sampleClient sampleClient
     { client_id := "client-1", client_secret := none, redirect_uris := [] }
     "client-1" (by decide) (by decide)⟩

/-- C6: the RS token verifier fails closed.  A network failure or raised
exception, a non-200 HTTP status, a malformed JSON body, and a response whose
`active` field is absent or falsy all make `verify_token` return `none`; and
whenever `verify_token` does return a token, the response's `scope` string
was translated by splitting on whitespace and discarding empty tokens. -/
theorem verify_token_fail_closed
    (t : String) (status : Nat) (body : Option JsonValue)
    (f₁ f₂ : List (String × JsonValue)) (sc : String) (tok : AccessToken)
    (hstatus : status ≠ 200)
    (hactive : truthy ((assocGet "active" f₁).getD (.jbool false)) = false)
    (hscope : (assocGet "scope" f₂).getD (.jstr "") = .jstr sc)
    (hsome : verify_token t (.httpResponse 200 (some (.jobj f₂))) = some tok) :
    verify_token t .netError = none
    ∧ verify_token t (.httpResponse status body) = none
    ∧ verify_token t (.httpResponse 200 none) = none
    ∧ verify_token t (.httpResponse 200 (some (.jobj f₁))) = none
    ∧ tok.scopes = splitScopes sc := by
  refine ⟨rfl, ?_, rfl, ?_, ?_⟩
  · simp [verify_token, hstatus]
  · simp [verify_token, hactive]
  · by_cases hact : truthy ((assocGet "active" f₂).getD (.jbool false)) = true
    · cases hexp : assocGet "exp" f₂ with
      | none =>
        simp [verify_token, hact, hexp, hscope] at hsome
        rw [← hsome]
      | some v =>
        cases v with
        | jnull =>
          simp [verify_token, hact, hexp, hscope] at hsome
          rw [← hsome]
        | jbool b =>
          simp [verify_token, hact, hexp, hscope, pyInt] at hsome
          rw [← hsome]
        | jnum n =>
          simp [verify_token, hact, hexp, hscope, pyInt] at hsome
          rw [← hsome]
        | jstr str =>
          cases hp : pyIntStr str with
          | none => simp [verify_token, hact, hexp, hscope, pyInt, hp] at hsome
          | some n =>
            simp [verify_token, hact, hexp, hscope, pyInt, hp] at hsome
            rw [← hsome]
        | jarr l => simp [verify_token, hact, hexp, hscope, pyInt] at hsome
        | jobj l => simp [verify_token, hact, hexp, hscope, pyInt] at hsome
    · rw [Bool.not_eq_true] at hact
      simp [verify_token, hact] at hsome

/-- Witness for C6: a 500 response, an empty-object body (falsy `active`), and
an active response carrying `scope` `"a  b"`. -/
theorem verify_token_fail_closed_witness :
    (500 : Nat) ≠ 200
    ∧ truthy ((assocGet "active" ([] : List (String × JsonValue))).getD (.jbool false)) = false
    ∧ (assocGet "scope" [("active", JsonValue.jbool true), ("scope", JsonValue.jstr "a  b")]).getD
        (.jstr "") = .jstr "a  b"
    ∧ verify_token "t"
        (.httpResponse 200 (some (.jobj [("active", .jbool true), ("scope", .jstr "a  b")])))
        = some { token := "t", client_id := "", scopes := ["a", "b"]
                 expires_at := none, resource := none }
    ∧ (verify_token "t" .netError = none
       ∧ verify_token "t" (.httpResponse 500 (some (.jobj []))) = none
       ∧ verify_token "t" (.httpResponse 200 none) = none
       ∧ verify_token "t" (.httpResponse 200 (some (.jobj []))) = none
       ∧ ({ token := "t", client_id := "", scopes := ["a", "b"]
            expires_at := none, resource := none } : AccessToken).scopes
          = splitScopes "a  b") :=
  ⟨by decide, rfl, rfl, rfl,
   verify_token_fail_closed "t" 500 (some (.jobj [])) []
     [("active", .jbool true), ("scope", .jstr "a  b")] "a  b"
     { token := "t", client_id := "", scopes := ["a", "b"], expires_at := none, resource := none }
     (by decide) rfl rfl rfl⟩

end OAuthDemo
